import Mathlib

/-!
Verification of the FSRS scheduling core of the tgapp-fsrs backend.

The embedding follows `backend/app/services/fsrs_service.py`,
`backend/app/crud/user_progress.py`, `backend/app/models.py` and
`backend/app/config.py`.  Python `datetime` values are modelled as an
integer count of microseconds together with an awareness flag; machine
floats are modelled as rationals; fallible code returns `Except`.
The external `fsrs` library (its `State`/`Rating` enums and
`Scheduler.review_card`) ships no source in this repository, so those
parts are modelled from the specification, as flagged on each definition.
-/

namespace Fsrs

/-- A Python `datetime`: microseconds since the epoch (read as UTC) plus
whether the value carries a `tzinfo` (aware) or not (naive). -/
structure PyDateTime where
  usec : Int
  aware : Bool
deriving DecidableEq, Repr

/-- Microseconds in one day (Python `timedelta(days=1)`). -/
def usecPerDay : Int := 86400000000

/-- Microseconds in one minute. -/
def usecPerMin : Int := 60000000

/-- `dt.replace(tzinfo=timezone.utc)` on a naive datetime: the clock
reading is kept and the value becomes aware (naive values are read as UTC). -/
def PyDateTime.toAware (t : PyDateTime) : PyDateTime :=
  { t with aware := true }

/-- Adding a `timedelta` of `d` microseconds to a datetime. -/
def PyDateTime.addUsec (t : PyDateTime) (d : Int) : PyDateTime :=
  { t with usec := t.usec + d }

/-- `(a - b).days` for Python datetimes: floor division of the
microsecond difference by one day (Python `timedelta.days` floors). -/
def tdDays (a b : PyDateTime) : Int :=
  Int.fdiv (a.usec - b.usec) usecPerDay

/-- The normalization applied throughout `fsrs_service.py`:
keep an aware timestamp, tag a naive one as UTC. -/
def normTs (t : PyDateTime) : PyDateTime :=
  if t.aware then t else t.toAware

/-- Modelled from the spec: the `fsrs` library `State` enum is not in
`src/`; per spec §3 and the `models.py` comment, the lifecycle states are
New=0, Learning=1, Review=2, Relearning=3. -/
inductive State where
  | New
  | Learning
  | Review
  | Relearning
deriving DecidableEq, Repr

/-- The integer `.value` of a `State` enum member. -/
def State.val : State → Int
  | .New => 0
  | .Learning => 1
  | .Review => 2
  | .Relearning => 3

/-- The `.name` of a `State` enum member. -/
def State.name : State → String
  | .New => "New"
  | .Learning => "Learning"
  | .Review => "Review"
  | .Relearning => "Relearning"

/-- `State(i)`: the enum constructor, failing on unrecognized values. -/
def State.ofInt : Int → Option State
  | 0 => some .New
  | 1 => some .Learning
  | 2 => some .Review
  | 3 => some .Relearning
  | _ => none

/-- Modelled from the spec: the `fsrs` library `Rating` enum is not in
`src/`; per spec §3, Again=1, Hard=2, Good=3, Easy=4. -/
inductive Rating where
  | Again
  | Hard
  | Good
  | Easy
deriving DecidableEq, Repr

/-- The integer `.value` of a `Rating` enum member. -/
def Rating.val : Rating → Int
  | .Again => 1
  | .Hard => 2
  | .Good => 3
  | .Easy => 4

/-- `Rating(i)`: the enum constructor, failing on values outside {1,2,3,4}. -/
def Rating.ofInt : Int → Option Rating
  | 1 => some .Again
  | 2 => some .Hard
  | 3 => some .Good
  | 4 => some .Easy
  | _ => none

/-- The `rating_names` mapping of `get_next_intervals`. -/
def Rating.keyName : Rating → String
  | .Again => "again"
  | .Hard => "hard"
  | .Good => "good"
  | .Easy => "easy"

/-- `for rating in Rating`: iteration order of the enum. -/
def ratingList : List Rating := [.Again, .Hard, .Good, .Easy]

/-- The error conditions of the service layer (spec §7): a `ValueError`
from `Rating(rating)` is InvalidRating, one from `State(progress.state)`
is InvalidState. -/
inductive FsrsError where
  | invalidRating
  | invalidState
deriving DecidableEq, Repr

/-- The `fsrs` library `Card` value, with exactly the fields
`fsrs_service.py` reads and writes (`due`, `stability`, `difficulty`,
`state`, `last_review`); per the source comment the library card carries
no `elapsed_days`/`scheduled_days`/`reps`/`lapses` fields. -/
structure Card where
  due : PyDateTime
  stability : Option ℚ
  difficulty : Option ℚ
  state : State
  last_review : Option PyDateTime
deriving DecidableEq, Repr

/-- The persisted `UserProgress` record (`models.py`): every FSRS column
is nullable at the SQL level, so each is an `Option`. -/
structure UserProgress where
  user_id : Nat
  question_id : Nat
  is_correct : Bool
  last_answered_at : Option PyDateTime
  stability : Option ℚ
  difficulty : Option ℚ
  retrievability : Option ℚ
  elapsed_days : Option Int
  scheduled_days : Option Int
  reps : Option Int
  lapses : Option Int
  state : Option Int
  last_review : Option PyDateTime
  due : Option PyDateTime
deriving DecidableEq, Repr

/-- Scheduler configuration (spec §6): the 17-float weight vector and
scalar settings. -/
structure SchedulerParams where
  w : List ℚ
  request_retention : ℚ
  maximum_interval : Int
  enable_fuzz : Bool
deriving DecidableEq, Repr

/-- `config.py` lines 91–96: `Settings.fsrs_default_parameters`. -/
def fsrs_default_parameters : SchedulerParams :=
  { w := [0.4, 0.6, 2.4, 5.8, 4.93, 0.94, 0.86, 0.01, 1.49, 0.14, 0.94,
          2.18, 0.05, 0.34, 1.26, 0.29, 2.61]
    request_retention := 0.9
    maximum_interval := 36500
    enable_fuzz := true }

/-- `FSRSService.__init__` (`fsrs_service.py` line 17): `self.fsrs =
Scheduler()` — the scheduler is constructed with no arguments, so the
instance carries whatever default parameters the external library
defines; nothing from `config.py` is passed in. -/
def FSRSService_scheduler (libraryDefault : SchedulerParams) : SchedulerParams :=
  libraryDefault

/-- State resolution of `convert_progress_to_card`: a null stored state
means `State.New`, otherwise `State(progress.state)`. -/
def stateResolve : Option Int → Option State
  | none => some .New
  | some v => State.ofInt v

/-- `convert_progress_to_card` (`fsrs_service.py` lines 19–62).
`tConv` models the `datetime.now(timezone.utc)` evaluated on line 55
when the stored `due` is null. -/
def convert_progress_to_card (p : UserProgress) (tConv : PyDateTime) :
    Except FsrsError Card :=
  match stateResolve p.state with
  | none => .error .invalidState
  | some st =>
    let last_review := p.last_review.map normTs
    let due := p.due.map normTs
    .ok { due := due.getD tConv
          stability := p.stability
          difficulty := p.difficulty
          state := st
          last_review := last_review }

/-- `w[i]` access on the weight vector. -/
def wAt (w : List ℚ) (i : Nat) : ℚ := w.getD i 0

/-- Clamp to `[lo, hi]`. -/
def clampQ (x lo hi : ℚ) : ℚ := max lo (min hi x)

/-- Modelled from the spec (§4.2 step 3, New branch): initial stability
taken directly from `w` per rating (w[0]..w[3]). -/
def initStability (w : List ℚ) (r : Rating) : ℚ :=
  wAt w ((r.val - 1).toNat)

/-- Modelled from the spec (§4.2 step 3, New branch): initial difficulty
from `w` and the rating, clamped to [1,10]. -/
def initDifficulty (w : List ℚ) (r : Rating) : ℚ :=
  clampQ (wAt w 4 - ((r.val : ℚ) - 3) * wAt w 5) 1 10

/-- Spec §4.2 step 4: the new difficulty is a clipped, weighted blend of
the previous difficulty and a rating-driven delta, clamped to [1,10]. -/
def nextDifficulty (w : List ℚ) (d : ℚ) (r : Rating) : ℚ :=
  clampQ (wAt w 7 * initDifficulty w .Good +
          (1 - wAt w 7) * (d - wAt w 6 * ((r.val : ℚ) - 3))) 1 10

/-- Spec §4.2 step 2: the forgetting-curve retrievability
`R = (1 + elapsed/(9·stability))⁻¹`, well-defined only for positive
stability (0 otherwise; the callers skip it for New cards). -/
def retrQ (elapsed : Int) (s : ℚ) : ℚ :=
  if 0 < s then (9 * s) / (9 * s + (elapsed : ℚ)) else 0

/-- Modelled from the spec: rating-dependent factor of the success
branch (Hard penalty below 1, Easy bonus above 1); the library's exact
constants are not in `src/`. -/
def ratingFactor : Rating → ℚ
  | .Again => 1
  | .Hard => 1 / 2
  | .Good => 1
  | .Easy => 3 / 2

/-- Modelled from the spec (§4.2 step 3, Review success branch): the
library's exact formula is not in `src/`; modelled as an upward
recomputation incorporating current retrievability, difficulty and
rating, as the spec describes. -/
def successStability (s d retr : ℚ) (r : Rating) : ℚ :=
  s * (1 + (11 - d) / 10 * (1 - retr) * ratingFactor r)

/-- Modelled from the spec (§4.2 step 3, lapse branch): a reduced
post-lapse stability drawn from `w`; the library's exact formula is not
in `src/`. -/
def postLapseStability (w : List ℚ) (s : ℚ) : ℚ :=
  wAt w 11 * s / (s + 1)

/-- Spec §4.2 step 5: next interval in days from the new stability and
the target retention, at least 1 day and capped by the configured
maximum interval. -/
def nextInterval (p : SchedulerParams) (s : ℚ) : Int :=
  max 1 (min p.maximum_interval (round (s * 9 * (1 / p.request_retention - 1))))

/-- Spec §4.2 step 1 with the §7 ClockSkew policy: days between
`last_review` and the review time, clamped to 0, and 0 when there is no
prior review. -/
def elapsedDays (lastReview : Option PyDateTime) (rt : PyDateTime) : Int :=
  match lastReview with
  | none => 0
  | some lr => max 0 (tdDays rt lr)

/-- Modelled from the spec: `Scheduler.review_card` of the `fsrs`
library is not in `src/`; this follows spec §4.2 steps 1–6 and §4.4 /
§5 (a pure function returning a fresh card).  The short-term step
lengths (minutes) and the numeric stability-update kernels are library
details absent from both `src/` and the spec; they are modelled as
rational functions with the qualitative shape the spec describes.  Fuzz
(step 5) is modelled disabled, as no claim depends on it. -/
def review_card (p : SchedulerParams) (card : Card) (r : Rating)
    (rt : PyDateTime) : Card :=
  let elapsed := elapsedDays card.last_review rt
  match card.state with
  | .New =>
    let s0 := initStability p.w r
    let d0 := initDifficulty p.w r
    match r with
    | .Easy =>
      let i := nextInterval p s0
      { due := rt.addUsec (i * usecPerDay), stability := some s0,
        difficulty := some d0, state := .Review, last_review := some rt }
    | .Again =>
      { due := rt.addUsec (1 * usecPerMin), stability := some s0,
        difficulty := some d0, state := .Learning, last_review := some rt }
    | .Hard =>
      { due := rt.addUsec (5 * usecPerMin), stability := some s0,
        difficulty := some d0, state := .Learning, last_review := some rt }
    | .Good =>
      { due := rt.addUsec (10 * usecPerMin), stability := some s0,
        difficulty := some d0, state := .Learning, last_review := some rt }
  | .Learning =>
    let s := card.stability.getD (initStability p.w r)
    let d := nextDifficulty p.w (card.difficulty.getD (initDifficulty p.w r)) r
    match r with
    | .Again =>
      { due := rt.addUsec (5 * usecPerMin), stability := some s,
        difficulty := some d, state := .Learning, last_review := some rt }
    | _ =>
      let i := nextInterval p s
      { due := rt.addUsec (i * usecPerDay), stability := some s,
        difficulty := some d, state := .Review, last_review := some rt }
  | .Relearning =>
    let s := card.stability.getD (initStability p.w r)
    let d := nextDifficulty p.w (card.difficulty.getD (initDifficulty p.w r)) r
    match r with
    | .Again =>
      { due := rt.addUsec (5 * usecPerMin), stability := some s,
        difficulty := some d, state := .Relearning, last_review := some rt }
    | _ =>
      let i := nextInterval p s
      { due := rt.addUsec (i * usecPerDay), stability := some s,
        difficulty := some d, state := .Review, last_review := some rt }
  | .Review =>
    let s := card.stability.getD 0
    let d := card.difficulty.getD 0
    let retr := retrQ elapsed s
    let d2 := nextDifficulty p.w d r
    match r with
    | .Again =>
      { due := rt.addUsec (5 * usecPerMin),
        stability := some (postLapseStability p.w s),
        difficulty := some d2, state := .Relearning, last_review := some rt }
    | _ =>
      let s2 := successStability s d retr r
      let i := nextInterval p s2
      { due := rt.addUsec (i * usecPerDay), stability := some s2,
        difficulty := some d2, state := .Review, last_review := some rt }

/-- The field-update dict returned by `convert_card_to_progress_data`
(`fsrs_service.py` lines 64–86). -/
structure ProgressData where
  stability : Option ℚ
  difficulty : Option ℚ
  state : Int
  last_review : Option PyDateTime
  due : PyDateTime
  elapsed_days : Int
  scheduled_days : Int
  reps : Int
  lapses : Int
  retrievability : Option ℚ
deriving DecidableEq, Repr

/-- `convert_card_to_progress_data` (`fsrs_service.py` lines 64–86):
stability/difficulty/state/last_review/due are taken from the card; the
remaining keys are the literal constants of the source dict. -/
def convert_card_to_progress_data (card : Card) : ProgressData :=
  { stability := card.stability
    difficulty := card.difficulty
    state := card.state.val
    last_review := card.last_review
    due := card.due
    elapsed_days := 0
    scheduled_days := 0
    reps := 0
    lapses := 0
    retrievability := none }

/-- Resolution of an optional time argument against a captured
`datetime.now(timezone.utc)` default, with naive inputs tagged as UTC
(`fsrs_service.py` lines 100–103 and 128–131). -/
def resolveTime (given : Option PyDateTime) (tDefault : PyDateTime) :
    PyDateTime :=
  match given with
  | none => tDefault
  | some t => normTs t

/-- `schedule_review` (`fsrs_service.py` lines 88–115).  `tDefault`
models the `datetime.now(timezone.utc)` taken when `review_time` is
omitted; `tConv` models the one taken inside the conversion. -/
def schedule_review (p : SchedulerParams) (progress : UserProgress)
    (rating : Int) (review_time : Option PyDateTime)
    (tDefault tConv : PyDateTime) : Except FsrsError ProgressData :=
  let rt := resolveTime review_time tDefault
  match convert_progress_to_card progress tConv with
  | .error e => .error e
  | .ok card =>
    match Rating.ofInt rating with
    | none => .error .invalidRating
    | some r => .ok (convert_card_to_progress_data (review_card p card r rt))

/-- The dict returned by `get_card_due_status`. -/
structure DueStatus where
  is_due : Bool
  due_date : PyDateTime
  days_until_due : Int
  state : String
  stability : Option ℚ
  difficulty : Option ℚ
deriving DecidableEq, Repr

/-- `get_card_due_status` (`fsrs_service.py` lines 117–144).  `tDefault`
models the `datetime.now(timezone.utc)` taken when `current_time` is
omitted; `tConv` the one taken inside the conversion (line 55). -/
def get_card_due_status (progress : UserProgress)
    (current_time : Option PyDateTime) (tDefault tConv : PyDateTime) :
    Except FsrsError DueStatus :=
  let ct := resolveTime current_time tDefault
  match convert_progress_to_card progress tConv with
  | .error e => .error e
  | .ok card =>
    let isDue := card.due.usec ≤ ct.usec
    .ok { is_due := isDue
          due_date := card.due
          days_until_due := if isDue then 0 else tdDays card.due ct
          state := card.state.name
          stability := card.stability
          difficulty := card.difficulty }

/-- One entry of the `get_next_intervals` result dict. -/
structure Projection where
  interval_days : Int
  due_date : PyDateTime
  stability : Option ℚ
  difficulty : Option ℚ
  state : String
deriving DecidableEq, Repr

/-- The loop body of `get_next_intervals`: one projection built from a
card reviewed with one rating at `ct`. -/
def projOf (p : SchedulerParams) (card : Card) (r : Rating)
    (ct : PyDateTime) : Projection :=
  let scheduled := review_card p card r ct
  { interval_days := tdDays scheduled.due ct
    due_date := scheduled.due
    stability := scheduled.stability
    difficulty := scheduled.difficulty
    state := scheduled.state.name }

/-- The `for rating in Rating` loop of `get_next_intervals` (lines
167–178), threading the card variable and the accumulating results dict
exactly as the source does: the loop reads `card` each iteration and
never rebinds it. -/
def intervalsLoop (p : SchedulerParams) (ct : PyDateTime) :
    List Rating → Card → List (String × Projection) →
    Card × List (String × Projection)
  | [], card, acc => (card, acc)
  | r :: rs, card, acc =>
    intervalsLoop p ct rs card (acc ++ [(r.keyName, projOf p card r ct)])

/-- `get_next_intervals` (`fsrs_service.py` lines 146–180).  `tConv`
models the conversion-time clock, `tNow` the `datetime.now(timezone.utc)`
of line 157. -/
def get_next_intervals (p : SchedulerParams) (progress : UserProgress)
    (tConv tNow : PyDateTime) :
    Except FsrsError (List (String × Projection)) :=
  match convert_progress_to_card progress tConv with
  | .error e => .error e
  | .ok card => .ok (intervalsLoop p tNow ratingList card []).2

/-- The answer-submission payload (`schemas.py`), restricted to the
fields the progress CRUD reads. -/
structure AnswerSubmit where
  user_id : Nat
  question_id : Nat
  is_correct : Bool
deriving DecidableEq, Repr

/-- The `for field, value in fsrs_data.items()` loop of
`crud/user_progress.py` (lines 197–201 and 228–232): every key of the
dict is written onto the record with `setattr`, except `reps` and
`lapses`, which are skipped. -/
def applyFsrsData (prog : UserProgress) (d : ProgressData) : UserProgress :=
  { prog with
    stability := d.stability
    difficulty := d.difficulty
    state := some d.state
    last_review := d.last_review
    due := some d.due
    elapsed_days := some d.elapsed_days
    scheduled_days := some d.scheduled_days
    retrievability := d.retrievability }

/-- The counter update of the existing-record branch (lines 189–192):
`reps` or `lapses` incremented from the submission's `is_correct` flag,
with a null counter read as 0. -/
def bumpCounters (prog : UserProgress) (isCorrect : Bool) : UserProgress :=
  if isCorrect then { prog with reps := some (prog.reps.getD 0 + 1) }
  else { prog with lapses := some (prog.lapses.getD 0 + 1) }

/-- The fresh record constructed by the no-existing-progress branch
(lines 207–223): state 0 (New), stability/difficulty 0.0, counters
seeded from `is_correct`, `last_review` and `due` set to the naive
`datetime.utcnow()` captured at the start of the call. -/
def freshProgress (data : AnswerSubmit) (now : PyDateTime) : UserProgress :=
  { user_id := data.user_id
    question_id := data.question_id
    is_correct := data.is_correct
    last_answered_at := some now
    stability := some 0
    difficulty := some 0
    retrievability := none
    elapsed_days := some 0
    scheduled_days := some 0
    reps := some (if data.is_correct then 1 else 0)
    lapses := some (if data.is_correct then 0 else 1)
    state := some 0
    last_review := some now
    due := some now }

/-- `create_or_update_progress_internal` (`crud/user_progress.py` lines
144–236), embedded as its effect on the progress record: `existing`
stands for the row the SELECT returns, `now` for the naive
`datetime.utcnow()` of line 160, `tConv` for the conversion-time clock
inside `schedule_review`.  An exception from `schedule_review`
propagates (the commit never runs). -/
def create_or_update_progress_internal (p : SchedulerParams)
    (existing : Option UserProgress) (data : AnswerSubmit) (rating : Int)
    (now tConv : PyDateTime) : Except FsrsError UserProgress :=
  match existing with
  | some prog =>
    match schedule_review p prog rating (some now) now tConv with
    | .error e => .error e
    | .ok fsrsData =>
      let prog1 := bumpCounters prog data.is_correct
      let prog2 := { prog1 with
        is_correct := data.is_correct, last_answered_at := some now }
      .ok (applyFsrsData prog2 fsrsData)
  | none =>
    let prog := freshProgress data now
    match schedule_review p prog rating (some now) now tConv with
    | .error e => .error e
    | .ok fsrsData => .ok (applyFsrsData prog fsrsData)

/-- `create_or_update_progress_batch_internal` (lines 239–321): the same
record transformation as the non-batch version — the two differ only in
that the batch version does not commit. -/
def create_or_update_progress_batch_internal (p : SchedulerParams)
    (existing : Option UserProgress) (data : AnswerSubmit) (rating : Int)
    (now tConv : PyDateTime) : Except FsrsError UserProgress :=
  match existing with
  | some prog =>
    match schedule_review p prog rating (some now) now tConv with
    | .error e => .error e
    | .ok fsrsData =>
      let prog1 := bumpCounters prog data.is_correct
      let prog2 := { prog1 with
        is_correct := data.is_correct, last_answered_at := some now }
      .ok (applyFsrsData prog2 fsrsData)
  | none =>
    let prog := freshProgress data now
    match schedule_review p prog rating (some now) now tConv with
    | .error e => .error e
    | .ok fsrsData => .ok (applyFsrsData prog fsrsData)

/-- Spec §3 invariant on persisted records: a card in state New (stored
state 0, or unset) has null stability and difficulty and zero counters. -/
def newCardInvariant (r : UserProgress) : Prop :=
  (r.state = some 0 ∨ r.state = none) →
    r.stability = none ∧ r.difficulty = none ∧
    r.reps = some 0 ∧ r.lapses = some 0

instance (r : UserProgress) : Decidable (newCardInvariant r) := by
  unfold newCardInvariant; infer_instance

/-! ### Helper lemmas and concrete fixtures -/

/-- `e.isOk` check for the service's `Except` results. -/
def exceptIsOk : Except FsrsError ProgressData → Bool
  | .ok _ => true
  | .error _ => false

theorem normTs_aware (t : PyDateTime) : (normTs t).aware = true := by
  unfold normTs PyDateTime.toAware
  split
  case isTrue h => exact h
  case isFalse h => rfl

theorem review_card_last_review (p : SchedulerParams) (card : Card)
    (r : Rating) (rt : PyDateTime) :
    (review_card p card r rt).last_review = some rt := by
  unfold review_card
  cases card.state <;> cases r <;> rfl

theorem review_card_state_ne_new (p : SchedulerParams) (card : Card)
    (r : Rating) (rt : PyDateTime) :
    (review_card p card r rt).state ≠ State.New := by
  unfold review_card
  cases card.state <;> cases r <;> simp [State.val]

theorem review_card_state_val_ne_zero (p : SchedulerParams) (card : Card)
    (r : Rating) (rt : PyDateTime) :
    (review_card p card r rt).state.val ≠ 0 := by
  unfold review_card
  cases card.state <;> cases r <;> simp [State.val]

theorem schedule_review_ok (p : SchedulerParams) (progress : UserProgress)
    (rating : Int) (rtOpt : Option PyDateTime) (tDefault tConv : PyDateTime)
    (pd : ProgressData)
    (h : schedule_review p progress rating rtOpt tDefault tConv = .ok pd) :
    ∃ card r, convert_progress_to_card progress tConv = .ok card ∧
      Rating.ofInt rating = some r ∧
      pd = convert_card_to_progress_data
        (review_card p card r (resolveTime rtOpt tDefault)) := by
  unfold schedule_review at h
  cases hc : convert_progress_to_card progress tConv with
  | error e => rw [hc] at h; exact absurd h (by simp)
  | ok card =>
    rw [hc] at h
    cases hr : Rating.ofInt rating with
    | none => rw [hr] at h; exact absurd h (by simp)
    | some r =>
      rw [hr] at h
      simp only [Except.ok.injEq] at h
      exact ⟨card, r, rfl, rfl, h.symm⟩

theorem schedule_review_eq (p : SchedulerParams) (progress : UserProgress)
    (rating : Int) (rtOpt : Option PyDateTime) (tDefault tConv : PyDateTime)
    (card : Card) (r : Rating)
    (hc : convert_progress_to_card progress tConv = .ok card)
    (hr : Rating.ofInt rating = some r) :
    schedule_review p progress rating rtOpt tDefault tConv =
      .ok (convert_card_to_progress_data
        (review_card p card r (resolveTime rtOpt tDefault))) := by
  unfold schedule_review
  rw [hc, hr]

/-- Epoch instant, timezone-aware. -/
def t0 : PyDateTime := { usec := 0, aware := true }

/-- One microsecond after the epoch, timezone-aware. -/
def t1 : PyDateTime := { usec := 1, aware := true }

/-- `k` days after the epoch, timezone-aware. -/
def dayT (k : Int) : PyDateTime := { usec := k * usecPerDay, aware := true }

/-- A brand-new persisted record: every FSRS column null. -/
def pNewUnset : UserProgress :=
  { user_id := 1, question_id := 1, is_correct := true,
    last_answered_at := none, stability := none, difficulty := none,
    retrievability := none, elapsed_days := none, scheduled_days := none,
    reps := none, lapses := none, state := none, last_review := none,
    due := none }

/-- A Review-state record: stability 10, difficulty 5, last reviewed at
the epoch, due 10 days later. -/
def pReview10 : UserProgress :=
  { user_id := 1, question_id := 2, is_correct := true,
    last_answered_at := some (dayT 0), stability := some 10,
    difficulty := some 5, retrievability := none, elapsed_days := some 0,
    scheduled_days := some 10, reps := some 3, lapses := some 0,
    state := some 2, last_review := some (dayT 0), due := some (dayT 10) }

/-- A record with an unrecognized stored state value. -/
def pBadState : UserProgress :=
  { pNewUnset with question_id := 3, state := some 7 }

/-- A Review-state record due one day before `dayT 10`. -/
def pDueYesterday : UserProgress :=
  { pReview10 with question_id := 4, due := some (dayT 9) }

/-- A record with naive stored timestamps and a null state. -/
def pNaive : UserProgress :=
  { pNewUnset with
    question_id := 5
    due := some { usec := 5, aware := false }
    last_review := some { usec := 3, aware := false } }

/-- An existing New-state record with zero counters. -/
def pExistingNew : UserProgress :=
  { pNewUnset with
    question_id := 6
    state := some 0
    reps := some 0
    lapses := some 0 }

/-- A correct-answer submission. -/
def subCorrect : AnswerSubmit :=
  { user_id := 1, question_id := 6, is_correct := true }

/-! ### Claims -/

/-- C1 (amended): for a persisted record with state and due both unset,
`get_card_due_status` reports `is_due = true` exactly when the
wall-clock timestamp captured inside the conversion (which becomes the
default `due`) is not later than the resolved `current_time` — not
unconditionally for every `now`. -/
theorem C1_new_card_due_iff_clock (progress : UserProgress)
    (ctOpt : Option PyDateTime) (tDefault tConv : PyDateTime)
    (hs : progress.state = none) (hd : progress.due = none) :
    (get_card_due_status progress ctOpt tDefault tConv).map DueStatus.is_due =
      .ok (decide (tConv.usec ≤ (resolveTime ctOpt tDefault).usec)) := by
  unfold get_card_due_status convert_progress_to_card
  rw [hs, hd]
  rfl

/-- C1 (counterexample): a New card with state and due unset, queried
with `now` one microsecond before the conversion-time clock, is reported
not due — refuting "isDue = true regardless of now". -/
theorem C1_counterexample :
    (get_card_due_status pNewUnset (some t0) t0 t1).map DueStatus.is_due =
      .ok false ∧
    (Except.ok false : Except FsrsError Bool) ≠ .ok true := by
  exact ⟨rfl, by simp⟩

/-- C1 (witness): with the conversion clock at the epoch and `now` one
microsecond later, the same New card is reported due. -/
theorem C1_witness :
    (get_card_due_status pNewUnset (some t1) t1 t0).map DueStatus.is_due =
      .ok true := by
  have h := C1_new_card_due_iff_clock pNewUnset (some t1) t1 t0 rfl rfl
  rw [h]
  rfl

/-- C6: `FSRSService.__init__` constructs `Scheduler()` with no
arguments, so the scheduler instance carries exactly the external
library's default parameters; whenever those differ from
`config.py`'s `fsrs_default_parameters`, the instance does not carry the
configured values — the configuration is never consulted. -/
theorem C6_scheduler_ignores_config (d : SchedulerParams) :
    FSRSService_scheduler d = d ∧
      (d ≠ fsrs_default_parameters →
        FSRSService_scheduler d ≠ fsrs_default_parameters) := by
  exact ⟨rfl, fun h => h⟩

/-- Some parameter record distinct from the configured one (the external
library's actual defaults are not part of this repository). -/
def emptyParams : SchedulerParams :=
  { w := [], request_retention := 0, maximum_interval := 0,
    enable_fuzz := false }

/-- C6 (witness): instantiating the library default with a record that
differs from the configuration, the constructed scheduler is that record
and not the configured parameters. -/
theorem C6_witness :
    FSRSService_scheduler emptyParams = emptyParams ∧
    FSRSService_scheduler emptyParams ≠ fsrs_default_parameters := by
  have h := C6_scheduler_ignores_config emptyParams
  exact ⟨h.1, h.2 (by decide)⟩

/-- C7: `convert_progress_to_card` is a total pure mapping on records
with a recognized (or unset) state: the state resolves to New when
unset, due defaults to the conversion-time clock when unset, and the
produced due and last_review timestamps are timezone-aware (naive stored
values are tagged as UTC). -/
theorem C7_conversion_total (progress : UserProgress) (tConv : PyDateTime)
    (st : State) (hs : stateResolve progress.state = some st)
    (ha : tConv.aware = true) :
    convert_progress_to_card progress tConv =
      .ok { due := (progress.due.map normTs).getD tConv
            stability := progress.stability
            difficulty := progress.difficulty
            state := st
            last_review := progress.last_review.map normTs } ∧
    (progress.state = none → st = State.New) ∧
    ((progress.due.map normTs).getD tConv).aware = true ∧
    (∀ t, progress.last_review.map normTs = some t → t.aware = true) := by
  refine ⟨?_, ?_, ?_, ?_⟩
  · unfold convert_progress_to_card
    rw [hs]
  · intro hnone
    rw [hnone] at hs
    exact (Option.some.injEq _ _ ▸ hs).symm
  · cases hdue : progress.due with
    | none => simpa using ha
    | some d => simpa [hdue] using normTs_aware d
  · intro t ht
    cases hlr : progress.last_review with
    | none => rw [hlr] at ht; exact absurd ht (by simp)
    | some d =>
      rw [hlr] at ht
      simp only [Option.map_some', Option.some.injEq] at ht
      rw [ht.symm] at *
      exact normTs_aware d

/-- C7 (witness): a record with null state and naive stored timestamps
converts to a New card with both timestamps tagged as UTC. -/
theorem C7_witness :
    convert_progress_to_card pNaive t0 =
      .ok { due := { usec := 5, aware := true }
            stability := none
            difficulty := none
            state := State.New
            last_review := some { usec := 3, aware := true } } ∧
    ((pNaive.due.map normTs).getD t0).aware = true := by
  have h := C7_conversion_total pNaive t0 State.New rfl rfl
  exact ⟨h.1, h.2.2.1⟩

/-- C9: for every record with a recognized state and every current time,
`get_card_due_status` reports days_until_due = 0 when the card is due,
and days_until_due = max(0, floor((due − now) in days)) when it is not
(the floored difference is then nonnegative, so the max is redundant). -/
theorem C9_days_until_due (progress : UserProgress)
    (ctOpt : Option PyDateTime) (tDefault tConv : PyDateTime)
    (st : State) (ds : DueStatus)
    (hs : stateResolve progress.state = some st)
    (h : get_card_due_status progress ctOpt tDefault tConv = .ok ds) :
    (ds.is_due = true → ds.days_until_due = 0) ∧
    (ds.is_due = false →
      ds.days_until_due =
        max 0 (tdDays ds.due_date (resolveTime ctOpt tDefault))) := by
  unfold get_card_due_status convert_progress_to_card at h
  rw [hs] at h
  simp only [Except.ok.injEq] at h
  subst h
  constructor
  · intro h1
    simp only [decide_eq_true_eq] at h1
    simp [h1]
  · intro h1
    simp only [decide_eq_false_iff_not] at h1
    simp only [if_neg h1]
    have hlt :
        (resolveTime ctOpt tDefault).usec <
          ((Option.map normTs progress.due).getD tConv).usec := by
      omega
    have hnn : 0 ≤ tdDays ((Option.map normTs progress.due).getD tConv)
        (resolveTime ctOpt tDefault) := by
      unfold tdDays
      exact Int.fdiv_nonneg (by omega) (by norm_num [usecPerDay])
    exact (max_eq_right hnn).symm

/-- The due-status record produced for `pDueYesterday` at `dayT 10`. -/
def dsYesterday : DueStatus :=
  { is_due := true, due_date := dayT 9, days_until_due := 0,
    state := "Review", stability := some 10, difficulty := some 5 }

/-- C9 (witness): a card with due = now − 1 day is due with
days_until_due = 0. -/
theorem C9_witness :
    get_card_due_status pDueYesterday (some (dayT 10)) t0 t0 =
      .ok dsYesterday ∧
    dsYesterday.is_due = true ∧ dsYesterday.days_until_due = 0 := by
  have h := C9_days_until_due pDueYesterday (some (dayT 10)) t0 t0
    State.Review dsYesterday rfl rfl
  exact ⟨rfl, rfl, h.1 rfl⟩

/-- C10: every successful `schedule_review` result maps retrievability
to None and reps and lapses to 0, whatever the stored values were; a
caller applying the dict therefore nulls any persisted retrievability. -/
theorem C10_reset_fields (p : SchedulerParams) (progress : UserProgress)
    (rating : Int) (rtOpt : Option PyDateTime) (tDefault tConv : PyDateTime)
    (pd : ProgressData)
    (h : schedule_review p progress rating rtOpt tDefault tConv = .ok pd) :
    pd.retrievability = none ∧ pd.reps = 0 ∧ pd.lapses = 0 ∧
    ∀ q : UserProgress, (applyFsrsData q pd).retrievability = none := by
  obtain ⟨card, r, hc, hr, hpd⟩ :=
    schedule_review_ok p progress rating rtOpt tDefault tConv pd h
  subst hpd
  exact ⟨rfl, rfl, rfl, fun q => rfl⟩

/-- The progress-data dict produced by reviewing a fresh record with
rating Good at the epoch. -/
def pdSample : ProgressData :=
  convert_card_to_progress_data
    (review_card fsrs_default_parameters
      { due := t0, stability := none, difficulty := none,
        state := State.New, last_review := none }
      Rating.Good t0)

theorem C10_witness :
    pdSample.retrievability = none ∧ pdSample.reps = 0 ∧
    pdSample.lapses = 0 ∧
    (applyFsrsData pNewUnset pdSample).retrievability = none := by
  have h := C10_reset_fields fsrs_default_parameters pNewUnset 3 none t0 t0
    pdSample rfl
  exact ⟨h.1, h.2.1, h.2.2.1, h.2.2.2 pNewUnset⟩

/-- C2 (amended): the field-update record returned by `schedule_review`
always carries elapsed_days = 0 and scheduled_days = 0 (both left "to be
calculated separately" and never recomputed), while due and last_review
come from the scheduler's updated card: last_review is the resolved
review time and due is the updated card's due — not review time plus the
record's scheduled_days. -/
theorem C2_schedule_bookkeeping (p : SchedulerParams)
    (progress : UserProgress) (rating : Int) (rtOpt : Option PyDateTime)
    (tDefault tConv : PyDateTime) (pd : ProgressData)
    (h : schedule_review p progress rating rtOpt tDefault tConv = .ok pd) :
    pd.elapsed_days = 0 ∧ pd.scheduled_days = 0 ∧
    ∃ card r, convert_progress_to_card progress tConv = .ok card ∧
      Rating.ofInt rating = some r ∧
      pd.due = (review_card p card r (resolveTime rtOpt tDefault)).due ∧
      pd.last_review = some (resolveTime rtOpt tDefault) := by
  obtain ⟨card, r, hc, hr, hpd⟩ :=
    schedule_review_ok p progress rating rtOpt tDefault tConv pd h
  subst hpd
  exact ⟨rfl, rfl, card, r, hc, hr, rfl,
    review_card_last_review p card r (resolveTime rtOpt tDefault)⟩

/-- A New-state record whose last review was at the epoch. -/
def pNewReviewed : UserProgress :=
  { pNewUnset with
    question_id := 7
    state := some 0
    last_review := some (dayT 0)
    due := some (dayT 0) }

/-- C2 (counterexample): reviewing a card last reviewed 10 days before
the review time, the returned record has elapsed_days = 0 — not the 10
days between last_review and the review time — and scheduled_days = 0,
and its due is not the review time plus the record's scheduled_days. -/
theorem C2_counterexample :
    (schedule_review fsrs_default_parameters pNewReviewed 1
        (some (dayT 10)) (dayT 10) (dayT 10)).map
      (fun d => (d.elapsed_days, d.scheduled_days,
        decide (d.due.usec = (dayT 10).usec + d.scheduled_days * usecPerDay))) =
      .ok (0, 0, false) ∧
    tdDays (dayT 10) (dayT 0) = 10 ∧ (0 : Int) ≠ 10 := by
  refine ⟨rfl, by decide, by decide⟩

theorem C2_witness :
    pdSample.elapsed_days = 0 ∧ pdSample.scheduled_days = 0 := by
  have h := C2_schedule_bookkeeping fsrs_default_parameters pNewUnset 3 none
    t0 t0 pdSample rfl
  exact ⟨h.1, h.2.1⟩

/-- C3: the rating loop of `get_next_intervals` threads the converted
card through all four iterations unchanged, and every projection is
computed by reviewing that same untouched card (the library call being
pure per the spec): the loop returns the input card as it received it,
and the result holds the four per-rating outcomes of the one card. -/
theorem C3_intervals_from_untouched_input (p : SchedulerParams)
    (progress : UserProgress) (tConv tNow : PyDateTime) (card : Card)
    (hc : convert_progress_to_card progress tConv = .ok card) :
    intervalsLoop p tNow ratingList card [] =
      (card,
       [("again", projOf p card .Again tNow),
        ("hard", projOf p card .Hard tNow),
        ("good", projOf p card .Good tNow),
        ("easy", projOf p card .Easy tNow)]) ∧
    get_next_intervals p progress tConv tNow =
      .ok [("again", projOf p card .Again tNow),
           ("hard", projOf p card .Hard tNow),
           ("good", projOf p card .Good tNow),
           ("easy", projOf p card .Easy tNow)] := by
  constructor
  · rfl
  · unfold get_next_intervals
    rw [hc]
    rfl

/-- The card a fresh record converts to at the epoch. -/
def cardNewUnset : Card :=
  { due := t0, stability := none, difficulty := none, state := State.New,
    last_review := none }

theorem C3_witness :
    get_next_intervals fsrs_default_parameters pNewUnset t0 t0 =
      .ok [("again", projOf fsrs_default_parameters cardNewUnset .Again t0),
           ("hard", projOf fsrs_default_parameters cardNewUnset .Hard t0),
           ("good", projOf fsrs_default_parameters cardNewUnset .Good t0),
           ("easy", projOf fsrs_default_parameters cardNewUnset .Easy t0)] := by
  exact (C3_intervals_from_untouched_input fsrs_default_parameters pNewUnset
    t0 t0 cardNewUnset rfl).2

/-- C4 (amended): on a review of an existing card, reps increments by
exactly 1 iff the submission's is_correct flag is true (lapses then
unchanged), and lapses increments by exactly 1 iff is_correct is false
(reps then unchanged); the FSRS rating plays no role in the counters.
The batch variant produces the identical record. -/
theorem C4_counters_follow_is_correct (p : SchedulerParams)
    (prog : UserProgress) (data : AnswerSubmit) (rating : Int)
    (now tConv : PyDateTime) (res res2 : UserProgress)
    (h : create_or_update_progress_internal p (some prog) data rating
          now tConv = .ok res)
    (h2 : create_or_update_progress_batch_internal p (some prog) data rating
          now tConv = .ok res2) :
    res2 = res ∧
    (data.is_correct = true →
      res.reps = some (prog.reps.getD 0 + 1) ∧ res.lapses = prog.lapses) ∧
    (data.is_correct = false →
      res.lapses = some (prog.lapses.getD 0 + 1) ∧ res.reps = prog.reps) := by
  unfold create_or_update_progress_internal at h
  unfold create_or_update_progress_batch_internal at h2
  dsimp only at h h2
  cases hs : schedule_review p prog rating (some now) now tConv with
  | error e =>
    rw [hs] at h
    simp at h
  | ok pd =>
    rw [hs] at h h2
    simp only [Except.ok.injEq] at h h2
    subst h
    subst h2
    refine ⟨rfl, ?_, ?_⟩
    · intro hcor
      unfold bumpCounters applyFsrsData
      rw [hcor]
      exact ⟨rfl, rfl⟩
    · intro hcor
      unfold bumpCounters applyFsrsData
      rw [hcor]
      exact ⟨rfl, rfl⟩

/-- C4 (counterexample): an existing card answered correctly but rated
Again (rating 1) gets its reps counter incremented and its lapses
counter left alone — the opposite of what the rating-based claim
demands for rating = Again. -/
theorem C4_counterexample :
    (create_or_update_progress_internal fsrs_default_parameters
        (some pExistingNew) subCorrect 1 t0 t0).map
      (fun r => (r.reps, r.lapses)) = .ok (some 1, some 0) ∧
    (Except.ok ((some 1 : Option Int), (some 0 : Option Int)) :
        Except FsrsError (Option Int × Option Int)) ≠
      .ok (some 0, some 1) := by
  refine ⟨rfl, by simp⟩

theorem C4_witness :
    (create_or_update_progress_internal fsrs_default_parameters
        (some pExistingNew) subCorrect 2 t0 t0).map
      (fun r => (r.reps, r.lapses)) = .ok (some 1, some 0) := by
  obtain ⟨res, hres⟩ : ∃ res, create_or_update_progress_internal
      fsrs_default_parameters (some pExistingNew) subCorrect 2 t0 t0 =
      .ok res := ⟨_, rfl⟩
  obtain ⟨res2, hres2⟩ : ∃ res2, create_or_update_progress_batch_internal
      fsrs_default_parameters (some pExistingNew) subCorrect 2 t0 t0 =
      .ok res2 := ⟨_, rfl⟩
  have h := C4_counters_follow_is_correct fsrs_default_parameters
    pExistingNew subCorrect 2 t0 t0 res res2 hres hres2
  have hc := h.2.1 rfl
  rw [hres]
  simp only [Except.map]
  rw [hc.1, hc.2]
  rfl

/-- C5: `schedule_review` fails with InvalidState when the stored state
is unrecognized (that check runs first, inside the conversion), fails
with InvalidRating when the state is recognized but the rating is
outside {1,2,3,4}, and succeeds for every rating in {1,2,3,4} on a
recognized state. -/
theorem C5_error_conditions (p : SchedulerParams) (progress : UserProgress)
    (rating : Int) (rtOpt : Option PyDateTime) (tDefault tConv : PyDateTime) :
    (stateResolve progress.state = none →
      schedule_review p progress rating rtOpt tDefault tConv =
        .error .invalidState) ∧
    (∀ st, stateResolve progress.state = some st →
      Rating.ofInt rating = none →
      schedule_review p progress rating rtOpt tDefault tConv =
        .error .invalidRating) ∧
    (∀ st r, stateResolve progress.state = some st →
      Rating.ofInt rating = some r →
      exceptIsOk (schedule_review p progress rating rtOpt tDefault tConv) =
        true) := by
  refine ⟨?_, ?_, ?_⟩
  · intro hs
    unfold schedule_review convert_progress_to_card
    rw [hs]
  · intro st hs hr
    unfold schedule_review convert_progress_to_card
    rw [hs, hr]
  · intro st r hs hr
    have hc : convert_progress_to_card progress tConv = .ok
        { due := (progress.due.map normTs).getD tConv
          stability := progress.stability
          difficulty := progress.difficulty
          state := st
          last_review := progress.last_review.map normTs } := by
      unfold convert_progress_to_card
      rw [hs]
    rw [schedule_review_eq p progress rating rtOpt tDefault tConv _ r hc hr]
    rfl

/-- C5 (witness): state 7 is rejected as InvalidState, rating 5 on a
recognized state as InvalidRating, and rating 3 on a recognized state
succeeds. -/
theorem C5_witness :
    schedule_review fsrs_default_parameters pBadState 3 none t0 t0 =
      .error .invalidState ∧
    schedule_review fsrs_default_parameters pReview10 5 none t0 t0 =
      .error .invalidRating ∧
    exceptIsOk (schedule_review fsrs_default_parameters pReview10 3
      none t0 t0) = true := by
  refine ⟨(C5_error_conditions fsrs_default_parameters pBadState 3 none
      t0 t0).1 rfl,
    (C5_error_conditions fsrs_default_parameters pReview10 5 none
      t0 t0).2.1 State.Review rfl rfl,
    (C5_error_conditions fsrs_default_parameters pReview10 3 none
      t0 t0).2.2 State.Review Rating.Good rfl rfl⟩

/-- C8: every record returned by the create-or-update operations (batch
included) satisfies the New-card invariant — indeed its stored state is
never New (neither 0 nor null), since a reviewed card always leaves the
New state, so the invariant's premise cannot hold of an op result. -/
theorem C8_ops_preserve_new_invariant (p : SchedulerParams)
    (existing : Option UserProgress) (data : AnswerSubmit) (rating : Int)
    (now tConv : PyDateTime) (res : UserProgress)
    (h : create_or_update_progress_internal p existing data rating now
          tConv = .ok res ∨
         create_or_update_progress_batch_internal p existing data rating now
          tConv = .ok res) :
    newCardInvariant res ∧ res.state ≠ some 0 ∧ res.state ≠ none := by
  have key : ∀ (q : UserProgress) (pd : ProgressData),
      pd.state ≠ 0 →
      newCardInvariant (applyFsrsData q pd) ∧
      (applyFsrsData q pd).state ≠ some 0 ∧
      (applyFsrsData q pd).state ≠ none := by
    intro q pd hv
    have hstate : (applyFsrsData q pd).state = some pd.state := rfl
    refine ⟨?_, ?_, ?_⟩
    · intro hmem
      rcases hmem with h0 | h0
      · rw [hstate] at h0
        simp only [Option.some.injEq] at h0
        exact absurd h0 hv
      · rw [hstate] at h0
        exact absurd h0 (by simp)
    · rw [hstate]
      simp only [ne_eq, Option.some.injEq]
      exact hv
    · rw [hstate]
      simp
  have shape : ∀ (pd : ProgressData) (rtOpt : Option PyDateTime)
      (tD tC : PyDateTime) (prg : UserProgress),
      schedule_review p prg rating rtOpt tD tC = .ok pd → pd.state ≠ 0 := by
    intro pd rtOpt tD tC prg hs
    obtain ⟨card, r, _, _, hpd⟩ :=
      schedule_review_ok p prg rating rtOpt tD tC pd hs
    subst hpd
    exact review_card_state_val_ne_zero p card r (resolveTime rtOpt tD)
  rcases h with h | h
  · unfold create_or_update_progress_internal at h
    cases existing with
    | some prog =>
      dsimp only at h
      cases hs : schedule_review p prog rating (some now) now tConv with
      | error e => rw [hs] at h; simp at h
      | ok pd =>
        rw [hs] at h
        simp only [Except.ok.injEq] at h
        subst h
        exact key _ pd (shape pd _ _ _ _ hs)
    | none =>
      dsimp only at h
      cases hs : schedule_review p (freshProgress data now) rating
          (some now) now tConv with
      | error e => rw [hs] at h; simp at h
      | ok pd =>
        rw [hs] at h
        simp only [Except.ok.injEq] at h
        subst h
        exact key _ pd (shape pd _ _ _ _ hs)
  · unfold create_or_update_progress_batch_internal at h
    cases existing with
    | some prog =>
      dsimp only at h
      cases hs : schedule_review p prog rating (some now) now tConv with
      | error e => rw [hs] at h; simp at h
      | ok pd =>
        rw [hs] at h
        simp only [Except.ok.injEq] at h
        subst h
        exact key _ pd (shape pd _ _ _ _ hs)
    | none =>
      dsimp only at h
      cases hs : schedule_review p (freshProgress data now) rating
          (some now) now tConv with
      | error e => rw [hs] at h; simp at h
      | ok pd =>
        rw [hs] at h
        simp only [Except.ok.injEq] at h
        subst h
        exact key _ pd (shape pd _ _ _ _ hs)

/-- C8 (witness): a concrete create-or-update run yields a record
satisfying the New-card invariant. -/
theorem C8_witness :
    (create_or_update_progress_internal fsrs_default_parameters
        (some pExistingNew) subCorrect 3 t0 t0).map
      (fun r => decide (newCardInvariant r)) = .ok true := by
  obtain ⟨res, hres⟩ : ∃ res, create_or_update_progress_internal
      fsrs_default_parameters (some pExistingNew) subCorrect 3 t0 t0 =
      .ok res := ⟨_, rfl⟩
  have h := C8_ops_preserve_new_invariant fsrs_default_parameters
    (some pExistingNew) subCorrect 3 t0 t0 res (Or.inl hres)
  rw [hres]
  simp only [Except.map]
  rw [decide_eq_true h.1]

end Fsrs
